import Mathlib

/-!
Verification development for the `netbox-tools` repository: a shallow
embedding of the ARIN registry payload model (`tools/arin/payloads.py`),
the registry client (`tools/arin/arin.py`) and the reassignment
orchestrator (`netbox-cli.py`, command `arin reassign simple`).

Python's dynamically typed values are embedded as `PyVal`; the
`xmltodict` library's `unparse`/`parse` pair, which the payload classes
use for serialization, is embedded at the XML-tree level (`Xml`), with a
string renderer mirroring the SAX output that `xmltodict.unparse`
produces.
-/

/-- A Python value as used by the payload classes: `None`, booleans,
integers, strings, (ordered) dicts and lists.  Dicts are association
lists preserving insertion order, as Python dicts do. -/
inductive PyVal where
  | none : PyVal
  | bool (b : Bool) : PyVal
  | int (n : Int) : PyVal
  | str (s : String) : PyVal
  | dict (entries : List (String × PyVal)) : PyVal
  | list (items : List PyVal) : PyVal
deriving Repr

/-- Python truthiness: `None`, `False`, `0`, `""`, `{}` and `[]` are
falsy, everything else is truthy. -/
def pyTruthy : PyVal → Bool
  | .none => false
  | .bool b => b
  | .int n => n != 0
  | .str s => !s.isEmpty
  | .dict es => !es.isEmpty
  | .list xs => !xs.isEmpty

/-- Whether a `PyVal` is a Python list. -/
def isListV : PyVal → Bool
  | .list _ => true
  | _ => false

/-- Whether a `PyVal` is a Python dict. -/
def isDictV : PyVal → Bool
  | .dict _ => true
  | _ => false

/-- A Python exception as raised by the embedded code paths. -/
inductive PyErr where
  | keyError (k : String) : PyErr
  | typeError (msg : String) : PyErr
  | attributeError (msg : String) : PyErr
  | payloadErr (msg : String) : PyErr
  | notImplementedError : PyErr
  | valueError (msg : String) : PyErr
deriving Repr, DecidableEq

/-- Dict lookup `d[k]`: `KeyError` when the key is missing, `TypeError`
when the value is not a dict (Python: not subscriptable by string). -/
def pyIndex (v : PyVal) (k : String) : Except PyErr PyVal :=
  match v with
  | .dict es =>
    match es.lookup k with
    | some x => .ok x
    | Option.none => .error (.keyError k)
  | _ => .error (.typeError "value is not subscriptable by string")

/-- Method call `d.get(k)`: returns `None` for a missing key; raises
`AttributeError` when the receiver is not a dict (e.g. `None.get`). -/
def pyGetM (v : PyVal) (k : String) : Except PyErr PyVal :=
  match v with
  | .dict es =>
    match es.lookup k with
    | some x => .ok x
    | Option.none => .ok .none
  | _ => .error (.attributeError "object has no attribute get")

/-- Total dict lookup used in theorem statements: `None` when the key is
missing or the value is not a dict. -/
def pyGetD (v : PyVal) (k : String) : PyVal :=
  match v with
  | .dict es => (es.lookup k).getD .none
  | _ => .none

/-- Python iteration `for x in v`: lists yield their items, strings
their characters, dicts their keys; other values raise `TypeError`. -/
def pyIter (v : PyVal) : Except PyErr (List PyVal) :=
  match v with
  | .list xs => .ok xs
  | .str s => .ok (s.data.map (fun c => .str (String.mk [c])))
  | .dict es => .ok (es.map (fun e => .str e.1))
  | _ => .error (.typeError "object is not iterable")

/-- Python's `str.join`: `pyJoin sep [a, b, c] = a ++ sep ++ b ++ sep ++ c`. -/
def pyJoin (sep : String) : List String → String
  | [] => ""
  | [x] => x
  | x :: xs => x ++ sep ++ pyJoin sep xs

/-- Auxiliary worker for `pySplit`, walking the character list and
accumulating the current (reversed) chunk. -/
def pySplitAux (sep : Char) : List Char → List Char → List String
  | [], acc => [String.mk acc.reverse]
  | c :: cs, acc =>
    if c = sep then String.mk acc.reverse :: pySplitAux sep cs []
    else pySplitAux sep cs (c :: acc)

/-- Python's `str.split(sep)` for a single-character separator: splits at
every occurrence, preserving empty chunks (`"".split "." = [""]`). -/
def pySplit (sep : Char) (s : String) : List String :=
  pySplitAux sep s.data []

/-- Python whitespace, as stripped by `str.strip()`. -/
def isPyWs (c : Char) : Bool :=
  c = ' ' || c = '\t' || c = '\n' || c = '\r' || c = '\x0b' || c = '\x0c'

/-- Python's `str.strip()`: remove leading and trailing whitespace. -/
def pyStrip (s : String) : String :=
  String.mk (((s.data.dropWhile isPyWs).reverse.dropWhile isPyWs).reverse)

mutual
/-- Python `repr` of a value, as used by `str()` on containers.  Only a
faithful approximation is needed: no payload schema in this repository
ever nests a list or dict inside a list value. -/
def pyRepr : PyVal → String
  | .none => "None"
  | .bool true => "True"
  | .bool false => "False"
  | .int n => toString n
  | .str s => "'" ++ s ++ "'"
  | .dict es => "\x7b" ++ pyJoin ", " (pyReprEntries es) ++ "\x7d"
  | .list xs => "[" ++ pyJoin ", " (pyReprItems xs) ++ "]"
/-- `repr` of dict entries, in order. -/
def pyReprEntries : List (String × PyVal) → List String
  | [] => []
  | (k, v) :: rest => ("'" ++ k ++ "': " ++ pyRepr v) :: pyReprEntries rest
/-- `repr` of list items, in order. -/
def pyReprItems : List PyVal → List String
  | [] => []
  | v :: rest => pyRepr v :: pyReprItems rest
end

/-- Python `str()` / `xmltodict`'s `_unicode` of a scalar value. -/
def pyUnicode : PyVal → String
  | .none => "None"
  | .bool true => "True"
  | .bool false => "False"
  | .int n => toString n
  | .str s => s
  | .dict es => pyRepr (.dict es)
  | .list xs => pyRepr (.list xs)

/-- An XML tree: elements with ordered attributes and children, and text
nodes.  This is the target of the embedded `xmltodict.unparse` and the
source of the embedded `xmltodict.parse`. -/
inductive Xml where
  | elem (tag : String) (attrs : List (String × String)) (children : List Xml) : Xml
  | text (s : String) : Xml
deriving Repr

/-- The tag of a top-level element (`""` for a text node). -/
def topTag : Xml → String
  | .elem t _ _ => t
  | .text _ => ""

/-- Boolean test used to count an element's children with a given tag. -/
def topTagIs (t : String) : Xml → Bool
  | .elem t2 _ _ => t2 == t
  | .text _ => false

/-- Number of direct children of `x` that are elements with tag `t`. -/
def countChild (x : Xml) (t : String) : Nat :=
  match x with
  | .elem _ _ cs => (cs.filter (topTagIs t)).length
  | .text _ => 0

/-- First direct child of `x` that is an element with tag `t`. -/
def childNamed (x : Xml) (t : String) : Option Xml :=
  match x with
  | .elem _ _ cs => cs.find? (topTagIs t)
  | .text _ => Option.none

/-! ## Embedded `xmltodict.unparse` (dict → XML tree) -/

/-- Attribute-value conversion performed by `xmltodict.unparse`
(`_unicode` on non-string attribute values). -/
def attrVal : PyVal → String
  | .str s => s
  | v => pyUnicode v

/-- `key.startswith('@')` on the first character. -/
def startsAt (k : String) : Bool :=
  match k.data with
  | '@' :: _ => true
  | _ => false

/-- Drop the first character of a key (the `@` attribute marker). -/
def strTail (k : String) : String :=
  String.mk (k.data.drop 1)

/-- Collect the `@`-prefixed entries of a dict as XML attributes, in
order. -/
def collectAttrs : List (String × PyVal) → List (String × String)
  | [] => []
  | (k, v) :: rest =>
    if startsAt k && k != "#text" then
      (strTail k, attrVal v) :: collectAttrs rest
    else collectAttrs rest

/-- The `#text` entry of a dict (the last one wins, as in a Python
dict scan where later assignment overwrites). -/
def cdataOf : List (String × PyVal) → Option PyVal
  | [] => Option.none
  | (k, v) :: rest =>
    match cdataOf rest with
    | some w => some w
    | Option.none => if k == "#text" then some v else Option.none

/-- Text nodes emitted for a `#text` value: a string is written via SAX
`characters` (writing `""` produces no output), `None` writes nothing. -/
def cdataNodes : Option PyVal → List Xml
  | Option.none => []
  | some .none => []
  | some (.str s) => if s.isEmpty then [] else [.text s]
  | some v => [.text (pyUnicode v)]

mutual
/-- Emission of a single non-repeated value under `key`:  `None` becomes
an empty element, booleans/ints/strings become text content, a dict
contributes attributes (`@` keys), children and trailing `#text`.
A list nested directly inside a list is stringified, as `_unicode` does. -/
def emitItem (key : String) (v : PyVal) : Xml :=
  match v with
  | .none => .elem key [] []
  | .bool b => .elem key [] [.text (if b then "true" else "false")]
  | .int n => .elem key [] [.text (toString n)]
  | .str s => .elem key [] (if s.isEmpty then [] else [.text s])
  | .dict es => .elem key (collectAttrs es) (emitChildren es ++ cdataNodes (cdataOf es))
  | .list xs => .elem key [] [.text (pyUnicode (.list xs))]
/-- One element per list item. -/
def emitList (key : String) : List PyVal → List Xml
  | [] => []
  | x :: rest => emitItem key x :: emitList key rest
/-- Children of a dict value, in entry order, skipping attribute and
`#text` entries; a list value repeats the element. -/
def emitChildren : List (String × PyVal) → List Xml
  | [] => []
  | (k, v) :: rest =>
    (if startsAt k || k == "#text" then [] else
      match v with
      | .list xs => emitList k xs
      | other => [emitItem k other]) ++ emitChildren rest
end

/-- `xmltodict`'s `_emit key value`: the list of XML elements produced
for one dict entry (a list value repeats the element). -/
def emit (key : String) (v : PyVal) : List Xml :=
  match v with
  | .list xs => emitList key xs
  | other => [emitItem key other]

/-- `xmltodict.unparse` on a top-level dict (with `full_document=False`
as the payload classes call it): one element per top-level entry. -/
def unparseTop : PyVal → List Xml
  | .dict es => es.flatMap (fun e => emit e.1 e.2)
  | _ => []

/-! ## Embedded `xmltodict.parse` (XML tree → dict) -/

/-- `push_data` of `xmltodict`'s SAX handler: adding a repeated key turns
the value into a list, preserving the position of the first occurrence. -/
def pushKey (es : List (String × PyVal)) (k : String) (v : PyVal) : List (String × PyVal) :=
  match es.lookup k with
  | Option.none => es ++ [(k, v)]
  | some (.list xs) => es.map (fun e => if e.1 == k then (k, .list (xs ++ [v])) else e)
  | some old => es.map (fun e => if e.1 == k then (k, .list [old, v]) else e)

/-- Combine an element's attributes, raw child `(tag, value)` pairs and
accumulated text into its parsed value, following `xmltodict.parse`:
no attributes and no element children gives the (stripped) text or
`None`; otherwise a dict of `@`-attributes, pushed children, and a
final `#text` entry. -/
def parseContentAux (attrs : List (String × String))
    (rawPairs : List (String × PyVal)) (txt : String) : PyVal :=
  let prs := rawPairs.foldl (fun acc e => pushKey acc e.1 e.2) []
  let t := pyStrip txt
  if attrs.isEmpty && prs.isEmpty then
    (if t.isEmpty then .none else .str t)
  else
    .dict ((attrs.map (fun a => ("@" ++ a.1, PyVal.str a.2))) ++ prs ++
      (if t.isEmpty then [] else [("#text", PyVal.str t)]))

mutual
/-- The parsed content of a single element node (text nodes do not occur
here; they contribute through `childText` instead). -/
def parseElemContent : Xml → PyVal
  | .text _ => .none
  | .elem _ a c => parseContentAux a (childPairs c) (childText c)
/-- The `(tag, parsed content)` pairs of the element children, in order. -/
def childPairs : List Xml → List (String × PyVal)
  | [] => []
  | x :: rest =>
    match x with
    | .text _ => childPairs rest
    | .elem t _ _ => (t, parseElemContent x) :: childPairs rest
/-- Concatenation of the text children, in order. -/
def childText : List Xml → String
  | [] => ""
  | .text s :: rest => s ++ childText rest
  | .elem _ _ _ :: rest => childText rest
end

/-- Parse the content of an element with attributes `attrs` and children
`children`. -/
def parseContent (attrs : List (String × String)) (children : List Xml) : PyVal :=
  parseContentAux attrs (childPairs children) (childText children)

theorem parseElemContent_elem (t : String) (a : List (String × String))
    (c : List Xml) : parseElemContent (.elem t a c) = parseContent a c := rfl

/-- `xmltodict.parse` of a whole document: a one-entry dict mapping the
root tag to the root's parsed content. -/
def parseDoc : Xml → PyVal
  | .elem t a c => .dict [(t, parseContent a c)]
  | .text _ => .none

/-! ## String rendering of the XML tree (the SAX output of `unparse`) -/

/-- One character of `xml.sax.saxutils.escape` (`&`, `<`, `>`). -/
def escChar (c : Char) : String :=
  if c = '&' then "&amp;"
  else if c = '<' then "&lt;"
  else if c = '>' then "&gt;"
  else String.mk [c]

/-- Escaping applied by SAX `characters` (`xml.sax.saxutils.escape`). -/
def escText (s : String) : String :=
  s.data.foldl (fun acc c => acc ++ escChar c) ""

/-- One character of attribute-value escaping (`quoteattr` with double
quotes). -/
def escAttrChar (c : Char) : String :=
  if c = '"' then "&quot;" else escChar c

/-- Escaping applied to attribute values. -/
def escAttr (s : String) : String :=
  s.data.foldl (fun acc c => acc ++ escAttrChar c) ""

/-- Rendered attribute list, each as ` key="value"`. -/
def renderAttrs : List (String × String) → String
  | [] => ""
  | (k, v) :: rest => " " ++ k ++ "=\"" ++ escAttr v ++ "\"" ++ renderAttrs rest

mutual
/-- Render an XML tree to its wire string (no self-closing tags, as
`XMLGenerator` with `short_empty_elements=False`). -/
def render : Xml → String
  | .text s => escText s
  | .elem t a c => "<" ++ t ++ renderAttrs a ++ ">" ++ renderKids c ++ "</" ++ t ++ ">"
/-- Render a list of children in order. -/
def renderKids : List Xml → String
  | [] => ""
  | x :: rest => render x ++ renderKids rest
end

/-! ## Payload model (`src/tools/arin/payloads.py`) -/

/-- The ARIN core XML namespace used by every payload schema. -/
def arinNs : String := "http://www.arin.net/regrws/core/v1"

/-- `CustomerPayload`: dynamic fields as assigned by `ArinPayload`'s
positional/keyword constructor (14 fields, all defaulting to `None`). -/
structure CustomerPayload where
  customer_name : PyVal
  iso3166_1_name : PyVal
  iso3166_1_code2 : PyVal
  iso3166_1_code3 : PyVal
  iso3166_1_e164 : PyVal
  street_address : PyVal
  city : PyVal
  iso3166_2 : PyVal
  postal_code : PyVal
  comment : PyVal
  parent_org_handle : PyVal
  private_customer : PyVal
  handle : PyVal
  registration_date : PyVal
deriving Repr

/-- `CustomerPayload(...)` with the twelve positional arguments the
orchestrator passes; `handle` and `registration_date` are filled with
`None` by `_parse_args`'s `IndexError` branch. -/
def CustomerPayload.init12 (customer_name iso3166_1_name iso3166_1_code2 iso3166_1_code3
    iso3166_1_e164 street_address city iso3166_2 postal_code comment
    parent_org_handle private_customer : PyVal) : CustomerPayload :=
  { customer_name := customer_name
    iso3166_1_name := iso3166_1_name
    iso3166_1_code2 := iso3166_1_code2
    iso3166_1_code3 := iso3166_1_code3
    iso3166_1_e164 := iso3166_1_e164
    street_address := street_address
    city := city
    iso3166_2 := iso3166_2
    postal_code := postal_code
    comment := comment
    parent_org_handle := parent_org_handle
    private_customer := private_customer
    handle := .none
    registration_date := .none }

/-- The dict content of `CustomerPayload.schema` under the `customer`
root, in the source's insertion order. -/
def CustomerPayload.schemaInner (p : CustomerPayload) : PyVal :=
  .dict [("@xmlns", .str arinNs),
    ("city", p.city),
    ("iso3166-1", .dict [("code2", p.iso3166_1_code2), ("code3", p.iso3166_1_code3),
      ("e164", p.iso3166_1_e164), ("name", p.iso3166_1_name)]),
    ("handle", p.handle),
    ("streetAddress", .dict [("line", .dict [("@number", .str "1"),
      ("#text", p.street_address)])]),
    ("customerName", p.customer_name),
    ("parentOrgHandle", p.parent_org_handle),
    ("comment", .dict [("line", .dict [("@number", .str "1"), ("#text", p.comment)])]),
    ("postalCode", p.postal_code),
    ("privateCustomer", p.private_customer),
    ("registrationDate", p.registration_date),
    ("iso3166-2", p.iso3166_2)]

/-- `CustomerPayload.schema`: the `{'customer': {...}}` dict. -/
def CustomerPayload.schema (p : CustomerPayload) : PyVal :=
  .dict [("customer", p.schemaInner)]

/-- `str(CustomerPayload)`: `xmltodict.unparse(schema, full_document=False)`,
a single `customer` root element. -/
def CustomerPayload.toXml (p : CustomerPayload) : Xml :=
  emitItem "customer" p.schemaInner

/-- `CustomerPayload.from_xml`: parse the document, require the
`customer` root, and extract each field in the source's order; only
`comment` is read through `.get` (optional), every other element is
accessed by direct indexing. -/
def CustomerPayload.from_xml (x : Xml) : Except PyErr CustomerPayload := do
  let document := parseDoc x
  let document_root ← pyIndex document "customer"
  let customer_name ← pyIndex document_root "customerName"
  let iso1 ← pyIndex document_root "iso3166-1"
  let iso3166_1_name ← pyIndex iso1 "name"
  let iso3166_1_code2 ← pyIndex iso1 "code2"
  let iso3166_1_code3 ← pyIndex iso1 "code3"
  let iso3166_1_e164 ← pyIndex iso1 "e164"
  let sa ← pyIndex document_root "streetAddress"
  let saLine ← pyIndex sa "line"
  let street_address ← pyIndex saLine "#text"
  let city ← pyIndex document_root "city"
  let iso3166_2 ← pyIndex document_root "iso3166-2"
  let postal_code ← pyIndex document_root "postalCode"
  let commentGot ← pyGetM document_root "comment"
  let comment ←
    if pyTruthy commentGot then do
      let cl ← pyIndex commentGot "line"
      pyIndex cl "#text"
    else pure PyVal.none
  let parent_org_handle ← pyIndex document_root "parentOrgHandle"
  let private_customer ← pyIndex document_root "privateCustomer"
  let handle ← pyIndex document_root "handle"
  let registration_date ← pyIndex document_root "registrationDate"
  pure { customer_name := customer_name
         iso3166_1_name := iso3166_1_name
         iso3166_1_code2 := iso3166_1_code2
         iso3166_1_code3 := iso3166_1_code3
         iso3166_1_e164 := iso3166_1_e164
         street_address := street_address
         city := city
         iso3166_2 := iso3166_2
         postal_code := postal_code
         comment := comment
         parent_org_handle := parent_org_handle
         private_customer := private_customer
         handle := handle
         registration_date := registration_date }

/-- `NetBlockPayload`: fields in the source's assignment order. -/
structure NetBlockPayload where
  version : PyVal
  net_type : PyVal
  description : PyVal
  start_address : PyVal
  end_address : PyVal
  cidr_length : PyVal
deriving Repr

/-- The fixed 19-symbol `net_type` enumeration of `NetBlockPayload.__init__`. -/
def validNetTypes : List String :=
  ["A", "AF", "AP", "AR", "AV", "DA", "DS", "FX", "IR", "IU", "LN", "LX",
   "PV", "PX", "RD", "RN", "RV", "RX", "S"]

/-- Python `v in l` for a list of string literals: true only for an equal
string value. -/
def pyInStrs (v : PyVal) (l : List String) : Bool :=
  match v with
  | .str s => l.contains s
  | _ => false

/-- `NetBlockPayload.__init__(start_address, description, end_address=None,
cidr_length=None, net_type=None, version=None)`: raises on a truthy
`net_type` outside the enumeration and on truthy `end_address` together
with truthy `cidr_length` (Python truthiness, so `0`, `""` and `None`
all skip the checks). -/
def NetBlockPayload.init (start_address description end_address cidr_length
    net_type version : PyVal) : Except PyErr NetBlockPayload :=
  if pyTruthy net_type && !pyInStrs net_type validNetTypes then
    .error (.payloadErr "Invalid net_type")
  else if pyTruthy end_address && pyTruthy cidr_length then
    .error (.payloadErr
      "Only one of the endAddress or the cidrLength fields are required; not both")
  else
    .ok { version := version
          net_type := net_type
          description := description
          start_address := start_address
          end_address := end_address
          cidr_length := cidr_length }

/-- The dict content of `NetBlockPayload.schema` under the `netBlock`
root: `description` and `startAddress` always, then `type`,
`endAddress`, `cidrLength`, `version` each only when truthy. -/
def NetBlockPayload.schemaInner (nb : NetBlockPayload) : PyVal :=
  .dict ([("@xmlns", .str arinNs),
    ("description", nb.description),
    ("startAddress", nb.start_address)] ++
    (if pyTruthy nb.net_type then [("type", nb.net_type)] else []) ++
    (if pyTruthy nb.end_address then [("endAddress", nb.end_address)] else []) ++
    (if pyTruthy nb.cidr_length then [("cidrLength", nb.cidr_length)] else []) ++
    (if pyTruthy nb.version then [("version", nb.version)] else []))

/-- `NetBlockPayload.schema`: the `{'netBlock': {...}}` dict. -/
def NetBlockPayload.schema (nb : NetBlockPayload) : PyVal :=
  .dict [("netBlock", nb.schemaInner)]

/-- `NetPayload`: fields in the source's assignment order.  `origin_ases`,
`net_blocks` and `poc_links` hold Python `None` or a list, so they are
typed as `Option` of a list. -/
structure NetPayload where
  version : PyVal
  comment : PyVal
  org_handle : PyVal
  customer_handle : PyVal
  parent_net_handle : PyVal
  net_name : PyVal
  origin_ases : Option (List PyVal)
  net_blocks : Option (List NetBlockPayload)
  handle : PyVal
  registration_date : PyVal
  poc_links : Option (List PyVal)
deriving Repr

/-- `NetPayload.__init__`: assigns every argument; performs no
validation whatsoever (in particular none on
`org_handle`/`customer_handle`). -/
def NetPayload.init (version comment parent_net_handle net_name : PyVal)
    (origin_ases : Option (List PyVal)) (net_blocks : Option (List NetBlockPayload))
    (handle registration_date org_handle customer_handle : PyVal)
    (poc_links : Option (List PyVal)) : NetPayload :=
  { version := version
    comment := comment
    org_handle := org_handle
    customer_handle := customer_handle
    parent_net_handle := parent_net_handle
    net_name := net_name
    origin_ases := origin_ases
    net_blocks := net_blocks
    handle := handle
    registration_date := registration_date
    poc_links := poc_links }

/-- An `OrderedDict` built from a pair sequence: a repeated key keeps its
first position and takes the last value (so the `originASes` comprehension
collapses to at most one `originAS` entry). -/
def odFromPairs (prs : List (String × PyVal)) : List (String × PyVal) :=
  prs.foldl (fun acc e =>
    if acc.any (fun a => a.1 == e.1) then
      acc.map (fun a => if a.1 == e.1 then e else a)
    else acc ++ [e]) []

/-- The dict content of `NetPayload.schema` under the `net` root.
`comment`, `registrationDate` and `handle` are emitted unconditionally;
`orgHandle`/`customerHandle` only when truthy; iterating a `None`
`net_blocks` raises `TypeError` (the property only defaults
`origin_ases` and `poc_links` to `[]`, not `net_blocks`). -/
def NetPayload.schemaInner (p : NetPayload) : Except PyErr PyVal :=
  match p.net_blocks with
  | Option.none => .error (.typeError "NoneType object is not iterable")
  | some bs =>
    let oases : List PyVal := match p.origin_ases with
      | Option.none => []
      | some l => l
    let plinks : List PyVal := match p.poc_links with
      | Option.none => []
      | some l => l
    .ok (.dict ([("@xmlns", .str arinNs),
      ("version", p.version),
      ("comment", .dict [("line", .dict [("@number", .str "0"), ("#text", p.comment)])]),
      ("registrationDate", p.registration_date),
      ("handle", p.handle),
      ("netBlocks", .list (bs.map NetBlockPayload.schema)),
      ("parentNetHandle", p.parent_net_handle),
      ("netName", p.net_name),
      ("originASes", .dict (odFromPairs (oases.map (fun a => ("originAS", a))))),
      ("pocLinks", .list plinks)] ++
      (if pyTruthy p.org_handle then [("orgHandle", p.org_handle)] else []) ++
      (if pyTruthy p.customer_handle then [("customerHandle", p.customer_handle)] else [])))

/-- `NetPayload.schema`: the `{'net': {...}}` dict. -/
def NetPayload.schema (p : NetPayload) : Except PyErr PyVal :=
  p.schemaInner.map (fun inner => .dict [("net", inner)])

/-- `str(NetPayload)`: the single `net` root element produced by
`xmltodict.unparse(schema, full_document=False)`. -/
def NetPayload.toXml (p : NetPayload) : Except PyErr Xml :=
  p.schemaInner.map (emitItem "net")

/-- `NetPayload.from_xml`, line for line: `version`, `parentNetHandle`,
`netName`, `handle` and `registrationDate` are accessed directly
(raising when absent); `comment`, `customerHandle`, `orgHandle` go
through `.get`; the `origin_ases`/`net_blocks` lookups use those exact
(snake_case) keys, and the `net_blocks` branch would call the
unimplemented `NetBlockPayload.from_xml` (a `NotImplementedError`). -/
def NetPayload.from_xml (x : Xml) : Except PyErr NetPayload := do
  let document := parseDoc x
  let document_root ← pyIndex document "net"
  let version ← pyIndex document_root "version"
  let commentGot ← pyGetM document_root "comment"
  let comment ←
    if pyTruthy commentGot then do
      let cl ← pyIndex commentGot "line"
      pyIndex cl "#text"
    else pure PyVal.none
  let parent_net_handle ← pyIndex document_root "parentNetHandle"
  let net_name ← pyIndex document_root "netName"
  let chGot ← pyGetM document_root "customerHandle"
  let customer_handle := if pyTruthy chGot then chGot else PyVal.none
  let ohGot ← pyGetM document_root "orgHandle"
  let org_handle := if pyTruthy ohGot then ohGot else PyVal.none
  let commentGot2 ← pyGetM document_root "comment"
  let comment2 ←
    if pyTruthy commentGot2 then do
      let cl ← pyIndex commentGot2 "line"
      pyIndex cl "#text"
    else pure comment
  let handle ← pyIndex document_root "handle"
  let registration_date ← pyIndex document_root "registrationDate"
  let oaGot ← pyGetM document_root "origin_ases"
  let origin_ases ←
    if pyTruthy oaGot then do
      let inner ← pyIndex oaGot "originAS"
      let items ← pyIter inner
      pure items
    else pure ([] : List PyVal)
  let nbGot ← pyGetM document_root "net_blocks"
  if pyTruthy nbGot then
    -- `NetBlockPayload.from_xml` is commented out in the source, so the
    -- inherited `ArinPayload.from_xml` would raise `NotImplementedError`.
    Except.error PyErr.notImplementedError
  else
    pure { version := version
           comment := comment2
           org_handle := org_handle
           customer_handle := customer_handle
           parent_net_handle := parent_net_handle
           net_name := net_name
           origin_ases := some origin_ases
           net_blocks := some []
           handle := handle
           registration_date := registration_date
           poc_links := Option.none }

/-- `TicketedRequestPayload.from_xml`: require the `ticketedRequest`
root, `.get('net')`; when truthy, re-unparse `{'net': ...}` and hand it
to `NetPayload.from_xml`; otherwise fall off the function (Python
returns `None`). -/
def TicketedRequestPayload.from_xml (x : Xml) : Except PyErr (Option NetPayload) := do
  let document := parseDoc x
  let document_root ← pyIndex document "ticketedRequest"
  let netGot ← pyGetM document_root "net"
  if pyTruthy netGot then
    match emit "net" netGot with
    | [doc] => do
      let np ← NetPayload.from_xml doc
      pure (some np)
    | _ =>
      -- `xmltodict.unparse` with a full document raises on zero or
      -- multiple roots.
      Except.error (.valueError "document with multiple roots")
  else
    pure Option.none

/-! ## Registry client (`src/tools/arin/arin.py`, `Arin._api_query`) -/

/-- An HTTP response as seen by `_api_query`: status code and body text. -/
structure HttpResp where
  status : Nat
  text : String
deriving Repr, DecidableEq

/-- What `_api_query` hands back to its caller.  `ok` is the 200-path
return of `request.text`; `returnedFalse` is the `except ARINException`
handler, which logs the message and returns Python `False`; `raised`
would be an `ARINException` escaping the method — the constructor exists
so that propagation claims are expressible, and the definitions below
never produce it. -/
inductive ApiOutcome where
  | ok (text : String) : ApiOutcome
  | returnedFalse (logged : String) : ApiOutcome
  | raised (status : Nat) (body : String) : ApiOutcome
deriving Repr, DecidableEq

/-- Whether an outcome is an exception escaping `_api_query`. -/
def ApiOutcome.isRaised : ApiOutcome → Bool
  | .raised _ _ => true
  | _ => false

/-- The HTTP methods accepted by `_api_query`. -/
def validMethods : List String := ["GET", "POST", "DELETE", "PUT"]

/-- The return types accepted by `_api_query`. -/
def validReturnTypes : List String := ["json", "html", "plain", "xml"]

/-- The `try:` body of `Arin._api_query`: validate `method` and
`return_type`, perform the request, and raise `ARINException` with the
status code and body text on a non-200 status. -/
def Arin.api_query_try (method return_type : String) (resp : HttpResp) :
    Except String String :=
  if !validMethods.contains method then
    .error "Invalid method specified"
  else if !validReturnTypes.contains return_type then
    .error "Invalid return type specified"
  else if resp.status != 200 then
    .error ("Server returned error code " ++ toString resp.status ++ ": " ++ resp.text)
  else
    .ok resp.text

/-- `Arin._api_query`: the `try` body with the method-level
`except ARINException` handler, which logs
`_api_query(resource) exception: ...` and returns `False`. -/
def Arin.api_query (resource method return_type : String) (resp : HttpResp) :
    ApiOutcome :=
  match Arin.api_query_try method return_type resp with
  | .ok t => .ok t
  | .error msg => .returnedFalse ("_api_query(" ++ resource ++ ") exception: " ++ msg)

/-- The HTTP requests `_api_query` issues, as request URLs: none when
method or return-type validation raises first, exactly one otherwise
(there is no retry loop). -/
def Arin.api_query_requests (resource apikey method return_type : String) :
    List String :=
  if !validMethods.contains method then []
  else if !validReturnTypes.contains return_type then []
  else ["https://www.arin.net/rest" ++ resource ++ "?apikey=" ++ apikey]

/-! ## Reassignment orchestrator (`src/netbox-cli.py`, `arin_reassign_simple`) -/

/-- A NetBox site, as consumed by the orchestrator. -/
structure SiteRec where
  physicalAddress : String
deriving Repr

/-- A NetBox tenant, as consumed by the orchestrator. -/
structure TenantRec where
  name : String
deriving Repr

/-- A NetBox prefix record, restricted to the fields the orchestrator
reads.  Per the spec's IPAM collaborator interface, `family` is `4` or
`6` and renders as its digits; `netAddr` and `pfxLen` are the network
address string and prefix length computed by the external `ipaddress`
module from the CIDR string. -/
structure PfxRec where
  id : Nat
  netAddr : String
  pfxLen : Nat
  family : Nat
  roleName : String
  rirHandle : PyVal
  site : Option SiteRec
  tenant : Option TenantRec
deriving Repr

/-- The geocoded address components the orchestrator extracts from a
`GeocodeResult` (street number + route, locality, postal code and
ISO-3166 data via `pycountry`). -/
structure GeoFields where
  iso1Name : String
  iso1Code2 : String
  iso1Code3 : String
  iso1E164 : String
  streetAddr : String
  city : String
  iso3166_2 : String
  postalCode : String
deriving Repr

/-- A registry response as consumed by the orchestrator: Python `False`
(from `_api_query`'s handler) or a response body (already parsed as an
XML tree). -/
inductive ApiResp where
  | fals : ApiResp
  | ok (x : Xml) : ApiResp
deriving Repr

/-- The collaborators and configuration the single-prefix workflow
reads: config values, the aggregate's `RIR Handle` custom field, the
geocoder (which may raise `GeocodeResultError`/`KeyError`), the registry
responses and the prefix store. -/
structure Env where
  parentOrgHandle : String
  originAses : List String
  aggregateHandle : PyVal
  geocode : String → Except String GeoFields
  customerResp : ApiResp
  netResp : ApiResp
  getPfx : Nat → PfxRec

/-- A registry call issued by the orchestrator, with the parent net
handle it targets and the serialized payload body. -/
inductive RegCall where
  | createRecipientCustomer (parentNet : String) (body : Xml) : RegCall
  | reassignNet (parentNet : String) (body : Xml) : RegCall
deriving Repr

/-- How one invocation of the single-prefix workflow ends. -/
inductive RunOut where
  | noop : RunOut
  | exited (code : Nat) : RunOut
  | raised (e : PyErr) : RunOut
  | geoFail (msg : String) : RunOut
  | debugger : RunOut
  | savedPfx (handle regDate nm : PyVal) : RunOut
  | doneNoNet : RunOut
deriving Repr

/-- Net-name construction of `arin_reassign_simple`:
`"CUST-%s-%s" % (prefix.family, "-".join(str(network_address).split('.')))`. -/
def netNameOf (family : Nat) (addr : String) : String :=
  "CUST-" ++ toString family ++ "-" ++ pyJoin "-" (pySplit '.' addr)

/-- String interpolation `"%s" % v` for a dynamic value. -/
def pyFormat (v : PyVal) : String := pyUnicode v

/-- The `prefix_id`-branch of `arin_reassign_simple` (lines 324-449 of
`netbox-cli.py`), as a function from the environment to the outcome and
the list of registry calls issued, in order:
check `parent_org_handle` (exit 1), fetch the prefix, check its
`RIR Handle` (exit 1), fetch the aggregate and check its `RIR Handle`
(exit 1), check tenant then site (exit 1 each), geocode, build and
submit the customer payload, parse the response, re-check the prefix
handle, build the net-block and net payloads, submit the reassign call,
and unwrap the ticketed response (`.handle` on a `None` unwrap raises
`AttributeError`); a falsy registry response lands in `ipdb.set_trace()`. -/
def arin_reassign_simple_one (env : Env) (prefix_id : Nat) (replace_existing : Bool) :
    RunOut × List RegCall :=
  if prefix_id == 0 then (.noop, [])
  else
    let parent_org_handle := env.parentOrgHandle
    if parent_org_handle.isEmpty then (.exited 1, [])
    else
      let p := env.getPfx prefix_id
      if !replace_existing && pyTruthy p.rirHandle then (.exited 1, [])
      else
        let parent_net_handle := env.aggregateHandle
        if !pyTruthy parent_net_handle then (.exited 1, [])
        else
          match p.tenant with
          | Option.none => (.exited 1, [])
          | some tenant =>
            match p.site with
            | Option.none => (.exited 1, [])
            | some site =>
              match env.geocode site.physicalAddress with
              | .error msg => (.geoFail msg, [])
              | .ok g =>
                let cust := CustomerPayload.init12 (.str tenant.name) (.str g.iso1Name)
                  (.str g.iso1Code2) (.str g.iso1Code3) (.str g.iso1E164)
                  (.str g.streetAddr) (.str g.city) (.str g.iso3166_2)
                  (.str g.postalCode) (.str "") (.str parent_org_handle) (.str "true")
                let calls1 := [RegCall.createRecipientCustomer
                  (pyFormat parent_net_handle) cust.toXml]
                match env.customerResp with
                | .fals => (.debugger, calls1)
                | .ok rx =>
                  match CustomerPayload.from_xml rx with
                  | .error e => (.raised e, calls1)
                  | .ok custResp =>
                    if !replace_existing && pyTruthy p.rirHandle then
                      (.doneNoNet, calls1)
                    else
                      match NetBlockPayload.init (.str p.netAddr) (.str p.roleName)
                          .none (.int p.pfxLen) .none .none with
                      | .error e => (.raised e, calls1)
                      | .ok nb =>
                        let nm := netNameOf p.family p.netAddr
                        let np := NetPayload.init (.int p.family) .none
                          parent_net_handle (.str nm)
                          (some (env.originAses.map PyVal.str)) (some [nb])
                          .none .none .none custResp.handle Option.none
                        match np.toXml with
                        | .error e => (.raised e, calls1)
                        | .ok nx =>
                          let calls2 := calls1 ++
                            [RegCall.reassignNet (pyFormat parent_net_handle) nx]
                          match env.netResp with
                          | .fals => (.debugger, calls2)
                          | .ok tx =>
                            match TicketedRequestPayload.from_xml tx with
                            | .error e => (.raised e, calls2)
                            | .ok Option.none =>
                              (.raised (.attributeError
                                "NoneType object has no attribute handle"), calls2)
                            | .ok (some rp) =>
                              (.savedPfx rp.handle rp.registration_date rp.net_name,
                                calls2)

/-- How a batch run ends: the loop completed, or an exception /
`ctx.exit` / debugger from inside one prefix's invocation escaped it. -/
inductive BatchEnd where
  | completed : BatchEnd
  | aborted (o : RunOut) : BatchEnd
deriving Repr

/-- Whether a single-prefix outcome lets the batch loop continue: a
normal Python return does, `ctx.exit` (a `click` `Exit` exception), an
uncaught exception, and the interactive debugger do not. -/
def RunOut.continuesBatch : RunOut → Bool
  | .noop => true
  | .savedPfx _ _ _ => true
  | .doneNoNet => true
  | _ => false

/-- The `aggregate_id`-branch loop of `arin_reassign_simple` (lines
302-322): for each prefix in order, the loop's own pre-checks (existing
`RIR Handle` without `--replace-existing`, missing site, missing tenant)
log and `continue`; otherwise `ctx.invoke` runs the single-prefix
workflow, whose non-normal endings propagate out of the loop.  Returns
the per-prefix outcomes of the prefixes actually processed, all registry
calls in order, and how the batch ended. -/
def arin_reassign_simple_batch (env : Env) (replace_existing : Bool) :
    List PfxRec → List (Nat × RunOut) × List RegCall × BatchEnd
  | [] => ([], [], .completed)
  | p :: rest =>
    if !replace_existing && pyTruthy p.rirHandle then
      arin_reassign_simple_batch env replace_existing rest
    else if p.site.isNone then
      arin_reassign_simple_batch env replace_existing rest
    else if p.tenant.isNone then
      arin_reassign_simple_batch env replace_existing rest
    else
      let r := arin_reassign_simple_one env p.id replace_existing
      if r.1.continuesBatch then
        let b := arin_reassign_simple_batch env replace_existing rest
        ((p.id, r.1) :: b.1, r.2 ++ b.2.1, b.2.2)
      else
        ([(p.id, r.1)], r.2, .aborted r.1)

/-! ## Helper lemmas about emission -/

theorem topTagIs_emitItem (t k : String) (v : PyVal) :
    topTagIs t (emitItem k v) = (k == t) := by
  cases v <;> simp [emitItem, topTagIs]

theorem filter_emitList (t k : String) (xs : List PyVal) :
    (emitList k xs).filter (topTagIs t) = if k == t then emitList k xs else [] := by
  induction xs with
  | nil => simp [emitList]
  | cons x rest ih =>
    by_cases h : (k == t) = true <;>
      simp [emitList, List.filter_cons, topTagIs_emitItem, ih, h]

theorem filter_emit (t k : String) (v : PyVal) :
    (emit k v).filter (topTagIs t) = if k == t then emit k v else [] := by
  by_cases h : (k == t) = true <;>
    cases v <;>
      simp [emit, filter_emitList, List.filter_cons, topTagIs_emitItem, h]

theorem length_emit_nonlist (k : String) (v : PyVal) (h : isListV v = false) :
    (emit k v).length = 1 := by
  cases v <;> simp_all [emit, isListV]

theorem isListV_dict (es : List (String × PyVal)) : isListV (.dict es) = false := rfl

theorem filter_cdataNodes (t : String) (c : Option PyVal) :
    (cdataNodes c).filter (topTagIs t) = [] := by
  match c with
  | Option.none => simp [cdataNodes]
  | some .none => simp [cdataNodes]
  | some (.str s) =>
    by_cases h : s.isEmpty <;> simp [cdataNodes, h, List.filter_cons, topTagIs]
  | some (.bool b) => simp [cdataNodes, List.filter_cons, topTagIs]
  | some (.int n) => simp [cdataNodes, List.filter_cons, topTagIs]
  | some (.dict es) => simp [cdataNodes, List.filter_cons, topTagIs]
  | some (.list xs) => simp [cdataNodes, List.filter_cons, topTagIs]

theorem emitChildren_cons (k : String) (v : PyVal) (rest : List (String × PyVal)) :
    emitChildren ((k, v) :: rest) =
      (if startsAt k || k == "#text" then [] else emit k v) ++ emitChildren rest := by
  cases v <;> simp [emitChildren, emit]

theorem emitChildren_append (a b : List (String × PyVal)) :
    emitChildren (a ++ b) = emitChildren a ++ emitChildren b := by
  induction a with
  | nil => simp [emitChildren]
  | cons e rest ih =>
    match e with
    | (k, v) =>
      rw [List.cons_append, emitChildren_cons, emitChildren_cons, ih,
        List.append_assoc]

theorem countChild_emitItem_dict (key t : String) (es : List (String × PyVal)) :
    countChild (emitItem key (.dict es)) t =
      ((emitChildren es).filter (topTagIs t)).length := by
  simp [emitItem, countChild, List.filter_append, filter_cdataNodes]

/-! ## Helpers for claim statements -/

/-- Child count through an `Except`-valued serialization (0 on error). -/
def countChildE (r : Except PyErr Xml) (t : String) : Nat :=
  match r with
  | .ok x => countChild x t
  | .error _ => 0

/-- Whether an `Except` result is a success. -/
def isOkE {α : Type} : Except PyErr α → Bool
  | .ok _ => true
  | .error _ => false

/-- Whether an `Except` result is a raised exception. -/
def isErrE {α : Type} : Except PyErr α → Bool
  | .ok _ => false
  | .error _ => true

/-! ## C4 -/

/-- C4 counterexample: `NetBlockPayload` validation uses Python
truthiness, so supplying **both** `end_address` and `cidr_length` with
`cidr_length = 0` is accepted (the claim says it must fail with a
`ValidationError`), and a supplied but empty `net_type = ""` outside the
19-symbol enumeration is accepted as well. -/
theorem C4_falsy_values_escape_validation :
    NetBlockPayload.init (.str "10.0.0.0") (.str "d") (.str "10.0.0.255") (.int 0)
        .none .none =
      .ok { version := .none, net_type := .none, description := .str "d",
            start_address := .str "10.0.0.0", end_address := .str "10.0.0.255",
            cidr_length := .int 0 } ∧
    NetBlockPayload.init (.str "10.0.0.0") (.str "d") .none .none (.str "") .none =
      .ok { version := .none, net_type := .str "", description := .str "d",
            start_address := .str "10.0.0.0", end_address := .none,
            cidr_length := .none } :=
  ⟨rfl, rfl⟩

/-- C4 (amended): `NetBlockPayload.__init__` fails exactly when a
**truthy** `net_type` lies outside the fixed 19-symbol enumeration or
when `end_address` and `cidr_length` are both **truthy**; any falsy
supplied value (`None`, `0`, `""`) is treated as absent, and otherwise
construction succeeds. -/
theorem C4_init_error_iff (s d e c t v : PyVal) :
    isErrE (NetBlockPayload.init s d e c t v) =
      ((pyTruthy t && !pyInStrs t validNetTypes) || (pyTruthy e && pyTruthy c)) := by
  unfold NetBlockPayload.init
  by_cases h1 : (pyTruthy t && !pyInStrs t validNetTypes) = true <;>
    by_cases h2 : (pyTruthy e && pyTruthy c) = true <;>
      simp [h1, h2, isErrE]

/-! ## C2 -/

/-- C2 counterexample: a 400 response with body `"Invalid payload"` is
**not** propagated to the caller; `_api_query` catches its own
`ARINException` (which did carry the status and body), logs it, and
returns Python `False`. -/
theorem C2_error_swallowed_not_raised :
    Arin.api_query "/net/NET-X/customer" "POST" "xml" ⟨400, "Invalid payload"⟩ =
      .returnedFalse
        "_api_query(/net/NET-X/customer) exception: Server returned error code 400: Invalid payload" ∧
    (Arin.api_query "/net/NET-X/customer" "POST" "xml"
      ⟨400, "Invalid payload"⟩).isRaised = false :=
  ⟨rfl, rfl⟩

/-- C2 (amended): for every valid method/return-type and every non-200
response, `_api_query` raises `ARINException` carrying the status code
and body text **inside** the method, catches it there, logs
`_api_query(resource) exception: ...`, and returns `False` to the
caller; no exception escapes the client, and exactly one HTTP request
is issued (no retry). -/
theorem C2_non200_returns_false (resource apikey method return_type : String)
    (resp : HttpResp)
    (hm : validMethods.contains method = true)
    (hr : validReturnTypes.contains return_type = true)
    (hs : resp.status ≠ 200) :
    Arin.api_query resource method return_type resp =
      .returnedFalse ("_api_query(" ++ resource ++ ") exception: " ++
        ("Server returned error code " ++ toString resp.status ++
          ": " ++ resp.text)) ∧
    (Arin.api_query resource method return_type resp).isRaised = false ∧
    (Arin.api_query_requests resource apikey method return_type).length = 1 := by
  have hm2 : method ∈ validMethods := by simpa using hm
  have hr2 : return_type ∈ validReturnTypes := by simpa using hr
  have h : Arin.api_query_try method return_type resp =
      .error ("Server returned error code " ++ toString resp.status ++ ": " ++ resp.text) := by
    unfold Arin.api_query_try
    simp [hm2, hr2, hs]
  refine ⟨?_, ?_, ?_⟩
  · unfold Arin.api_query
    rw [h]
  · unfold Arin.api_query
    rw [h]
    rfl
  · unfold Arin.api_query_requests
    simp [hm2, hr2]

/-- C2 witness: the amended statement at a concrete 400 response. -/
theorem C2_non200_returns_false_witness :
    Arin.api_query "/net/NET-X/customer" "POST" "xml" ⟨400, "Invalid payload"⟩ =
      .returnedFalse ("_api_query(" ++ "/net/NET-X/customer" ++ ") exception: " ++
        ("Server returned error code " ++ toString (400 : Nat) ++
          ": " ++ "Invalid payload")) ∧
    (Arin.api_query "/net/NET-X/customer" "POST" "xml"
      ⟨400, "Invalid payload"⟩).isRaised = false ∧
    (Arin.api_query_requests "/net/NET-X/customer" "APIKEY" "POST" "xml").length = 1 :=
  C2_non200_returns_false "/net/NET-X/customer" "APIKEY" "POST" "xml"
    ⟨400, "Invalid payload"⟩ rfl rfl (by decide)


/-! ## C1 -/

/-- A `NetPayload` constructed with **both** handles set. -/
def pBothHandles : NetPayload :=
  NetPayload.init (.int 4) .none (.str "NET-PARENT") (.str "CUST-4-10-1-1-0")
    (some []) (some []) .none .none (.str "ORG-1") (.str "C12345") Option.none

/-- A `NetPayload` constructed with **neither** handle set. -/
def pNeitherHandle : NetPayload :=
  NetPayload.init (.int 4) .none (.str "NET-PARENT") (.str "CUST-4-10-1-1-0")
    (some []) (some []) .none .none .none .none Option.none

/-- C1 counterexample: constructing a `NetPayload` with both
`org_handle` and `customer_handle`, or with neither, raises no
`ValidationError` anywhere — `__init__` performs no validation and
serialization succeeds; the both-set payload serializes with **both**
an `orgHandle` and a `customerHandle` element, the neither-set payload
with none. -/
theorem C1_both_or_neither_not_rejected :
    isOkE pBothHandles.toXml = true ∧
    countChildE pBothHandles.toXml "orgHandle" = 1 ∧
    countChildE pBothHandles.toXml "customerHandle" = 1 ∧
    isOkE pNeitherHandle.toXml = true ∧
    countChildE pNeitherHandle.toXml "orgHandle" = 0 ∧
    countChildE pNeitherHandle.toXml "customerHandle" = 0 :=
  ⟨rfl, rfl, rfl, rfl, rfl, rfl⟩

/-- C1 (amended): `NetPayload` construction never validates the
`org_handle`/`customer_handle` exclusivity; for every payload (with a
list of net blocks, and non-list handle values) serialization succeeds
and the `net` element contains an `orgHandle` child exactly when
`org_handle` is truthy and a `customerHandle` child exactly when
`customer_handle` is truthy — so supplying exactly one yields exactly
that one element, but both-set yields both and neither-set yields
none; exclusivity is enforced only by the registry server. -/
theorem C1_handle_element_occurrence (v c pnh nn h rd org cust : PyVal)
    (oa : List PyVal) (bs : List NetBlockPayload) (pl : Option (List PyVal))
    (ho : isListV org = false) (hc : isListV cust = false) :
    isOkE ((NetPayload.init v c pnh nn (some oa) (some bs) h rd org cust pl).toXml)
        = true ∧
    countChildE ((NetPayload.init v c pnh nn (some oa) (some bs) h rd org cust
        pl).toXml) "orgHandle" = (if pyTruthy org then 1 else 0) ∧
    countChildE ((NetPayload.init v c pnh nn (some oa) (some bs) h rd org cust
        pl).toXml) "customerHandle" = (if pyTruthy cust then 1 else 0) := by
  refine ⟨rfl, ?_, ?_⟩
  all_goals
    simp only [NetPayload.init, NetPayload.toXml, NetPayload.schemaInner, Except.map,
      countChildE, countChild_emitItem_dict, emitChildren_append, emitChildren_cons,
      List.filter_append, List.length_append]
    by_cases ho2 : pyTruthy org = true <;> by_cases hc2 : pyTruthy cust = true <;>
      simp [filter_emit, startsAt, emitChildren_cons, emitChildren,
        length_emit_nonlist, ho, hc, ho2, hc2]

/-- C1 witness: the amended statement with exactly `org_handle` set. -/
theorem C1_handle_element_occurrence_witness :
    isOkE ((NetPayload.init (.int 4) .none (.str "NET-PARENT") (.str "N")
        (some []) (some []) .none .none (.str "ORG-1") .none Option.none).toXml)
        = true ∧
    countChildE ((NetPayload.init (.int 4) .none (.str "NET-PARENT") (.str "N")
        (some []) (some []) .none .none (.str "ORG-1") .none Option.none).toXml)
        "orgHandle" = (if pyTruthy (.str "ORG-1") then 1 else 0) ∧
    countChildE ((NetPayload.init (.int 4) .none (.str "NET-PARENT") (.str "N")
        (some []) (some []) .none .none (.str "ORG-1") .none Option.none).toXml)
        "customerHandle" = (if pyTruthy .none then 1 else 0) :=
  C1_handle_element_occurrence (.int 4) .none (.str "NET-PARENT") (.str "N")
    .none .none (.str "ORG-1") .none [] [] Option.none rfl rfl

/-! ## C3 -/

/-- A `NetPayload` as the orchestrator builds it, with `comment = None`. -/
def pCommentNone : NetPayload :=
  NetPayload.init (.int 4) .none (.str "NET-PARENT") (.str "CUST-4-10-1-1-0")
    (some []) (some []) .none .none .none (.str "C12345") Option.none

/-- The same `NetPayload` with `comment = ""`. -/
def pCommentEmpty : NetPayload :=
  NetPayload.init (.int 4) (.str "") (.str "NET-PARENT") (.str "CUST-4-10-1-1-0")
    (some []) (some []) .none .none .none (.str "C12345") Option.none

/-- A `NetBlockPayload` with `end_address = ""`. -/
def nbEmptyEnd : NetBlockPayload :=
  { version := .none, net_type := .none, description := .str "d",
    start_address := .str "10.0.0.0", end_address := .str "", cidr_length := .none }

/-- C3 counterexample: a `NetPayload` with `comment = None` **does**
produce a `<comment>` element — the same
`<comment><line number="0"></line></comment>` that `comment = ""`
produces (the whole serialization is identical for the two payloads),
and `handle`/`registrationDate` set to `None` are also emitted as empty
elements; conversely a `NetBlockPayload` field set to `""` (falsy) is
**omitted**, not emitted as an empty element. -/
theorem C3_none_comment_still_emitted :
    countChildE pCommentNone.toXml "comment" = 1 ∧
    pCommentNone.toXml = pCommentEmpty.toXml ∧
    (pCommentNone.toXml).map (fun x => (childNamed x "comment").map render) =
      .ok (some "<comment><line number=\"0\"></line></comment>") ∧
    countChildE pCommentNone.toXml "handle" = 1 ∧
    countChildE pCommentNone.toXml "registrationDate" = 1 ∧
    NetBlockPayload.init (.str "10.0.0.0") (.str "d") (.str "") .none .none .none =
      .ok nbEmptyEnd ∧
    countChild (emitItem "netBlock" nbEmptyEnd.schemaInner) "endAddress" = 0 :=
  ⟨rfl, rfl, rfl, rfl, rfl, rfl, rfl⟩

/-- C3 (amended): `NetPayload` serialization emits `comment`,
`handle` and `registrationDate` elements unconditionally (as empty
elements when the field is `None`), and `NetBlockPayload` serialization
emits `type`/`endAddress`/`cidrLength`/`version` exactly when the field
is **truthy** — `None`, `""` and `0` are all omitted alike, so absence
vs. empty-string is not distinguished by the serializer. -/
theorem C3_emission_truthiness (v pnh nn h rd cmt org cust : PyVal)
    (oa : List PyVal) (bs : List NetBlockPayload) (pl : Option (List PyVal))
    (hh : isListV h = false) (hrd : isListV rd = false)
    (ho : isListV org = false) (hc : isListV cust = false)
    (nb : NetBlockPayload)
    (he : isListV nb.end_address = false) (hcl : isListV nb.cidr_length = false)
    (ht : isListV nb.net_type = false) (hv : isListV nb.version = false) :
    countChildE ((NetPayload.init v cmt pnh nn (some oa) (some bs) h rd org cust
        pl).toXml) "comment" = 1 ∧
    countChildE ((NetPayload.init v cmt pnh nn (some oa) (some bs) h rd org cust
        pl).toXml) "handle" = 1 ∧
    countChildE ((NetPayload.init v cmt pnh nn (some oa) (some bs) h rd org cust
        pl).toXml) "registrationDate" = 1 ∧
    countChild (emitItem "netBlock" nb.schemaInner) "endAddress" =
      (if pyTruthy nb.end_address then 1 else 0) ∧
    countChild (emitItem "netBlock" nb.schemaInner) "cidrLength" =
      (if pyTruthy nb.cidr_length then 1 else 0) ∧
    countChild (emitItem "netBlock" nb.schemaInner) "type" =
      (if pyTruthy nb.net_type then 1 else 0) ∧
    countChild (emitItem "netBlock" nb.schemaInner) "version" =
      (if pyTruthy nb.version then 1 else 0) := by
  refine ⟨?_, ?_, ?_, ?_, ?_, ?_, ?_⟩
  all_goals
    first
      | (simp only [NetPayload.init, NetPayload.toXml, NetPayload.schemaInner,
          Except.map, countChildE, countChild_emitItem_dict, emitChildren_append,
          emitChildren_cons, List.filter_append, List.length_append]
         by_cases ho2 : pyTruthy org = true <;> by_cases hc2 : pyTruthy cust = true <;>
           simp [filter_emit, startsAt, emitChildren_cons, emitChildren,
             length_emit_nonlist, isListV_dict, hh, hrd, ho, hc, ho2, hc2])
      | (simp only [NetBlockPayload.schemaInner, countChild_emitItem_dict,
          emitChildren_append, emitChildren_cons, List.filter_append,
          List.length_append]
         by_cases h1 : pyTruthy nb.net_type = true <;>
           by_cases h2 : pyTruthy nb.end_address = true <;>
             by_cases h3 : pyTruthy nb.cidr_length = true <;>
               by_cases h4 : pyTruthy nb.version = true <;>
                 simp [filter_emit, startsAt, emitChildren_cons, emitChildren,
                   length_emit_nonlist, isListV_dict, he, hcl, ht, hv, h1, h2, h3, h4])

/-- C3 witness: the amended statement at the orchestrator-style payload
with `comment = None` and a net block with `end_address = ""`. -/
theorem C3_emission_truthiness_witness :
    countChildE ((NetPayload.init (.int 4) .none (.str "NET-PARENT")
        (.str "CUST-4-10-1-1-0") (some []) (some []) .none .none .none
        (.str "C12345") Option.none).toXml) "comment" = 1 ∧
    countChildE ((NetPayload.init (.int 4) .none (.str "NET-PARENT")
        (.str "CUST-4-10-1-1-0") (some []) (some []) .none .none .none
        (.str "C12345") Option.none).toXml) "handle" = 1 ∧
    countChildE ((NetPayload.init (.int 4) .none (.str "NET-PARENT")
        (.str "CUST-4-10-1-1-0") (some []) (some []) .none .none .none
        (.str "C12345") Option.none).toXml) "registrationDate" = 1 ∧
    countChild (emitItem "netBlock" nbEmptyEnd.schemaInner) "endAddress" =
      (if pyTruthy nbEmptyEnd.end_address then 1 else 0) ∧
    countChild (emitItem "netBlock" nbEmptyEnd.schemaInner) "cidrLength" =
      (if pyTruthy nbEmptyEnd.cidr_length then 1 else 0) ∧
    countChild (emitItem "netBlock" nbEmptyEnd.schemaInner) "type" =
      (if pyTruthy nbEmptyEnd.net_type then 1 else 0) ∧
    countChild (emitItem "netBlock" nbEmptyEnd.schemaInner) "version" =
      (if pyTruthy nbEmptyEnd.version then 1 else 0) :=
  C3_emission_truthiness (.int 4) (.str "NET-PARENT") (.str "CUST-4-10-1-1-0")
    .none .none .none .none (.str "C12345") [] [] Option.none rfl rfl rfl rfl
    nbEmptyEnd rfl rfl rfl rfl

/-! ## C5 -/

/-- C5 counterexample: a response rooted at `customer` whose only child
is `customerName` — the root tag is present, yet `from_xml` raises
(`KeyError: 'iso3166-1'`) instead of mapping the missing elements to
`None`. -/
theorem C5_missing_subelement_raises :
    CustomerPayload.from_xml
        (.elem "customer" [] [.elem "customerName" [] [.text "Acme"]]) =
      .error (.keyError "iso3166-1") :=
  rfl

/-- A complete `customer` response document without a `comment` element. -/
def customerDocNoComment : Xml :=
  .elem "customer" []
    [.elem "customerName" [] [.text "Acme Inc"],
     .elem "iso3166-1" []
       [.elem "name" [] [.text "CANADA"], .elem "code2" [] [.text "CA"],
        .elem "code3" [] [.text "CAN"], .elem "e164" [] [.text "1"]],
     .elem "streetAddress" [] [.elem "line" [("number", "1")] [.text "1 Main St"]],
     .elem "city" [] [.text "Montreal"],
     .elem "iso3166-2" [] [.text "QC"],
     .elem "postalCode" [] [.text "H1A 1A1"],
     .elem "parentOrgHandle" [] [.text "ORG-1"],
     .elem "privateCustomer" [] [.text "true"],
     .elem "handle" [] [.text "C12345"],
     .elem "registrationDate" [] [.text "2019-01-01"]]

/-- C5 (amended): `from_xml` raises a parse error (`KeyError` on the
root tag) exactly as claimed when the expected root element is absent —
but a present root is not sufficient: most sub-elements are **required**
and their absence raises too (`KeyError`/`TypeError`); only `comment`
(and, for `net`, `customerHandle`/`orgHandle` and the dead
`origin_ases`/`net_blocks` lookups) are optional, e.g. a full customer
document without `comment` parses with `comment = None`. -/
theorem C5_root_and_required_fields :
    (∀ (t : String) (a : List (String × String)) (c : List Xml), t ≠ "customer" →
      CustomerPayload.from_xml (.elem t a c) = .error (.keyError "customer")) ∧
    (∀ (t : String) (a : List (String × String)) (c : List Xml), t ≠ "net" →
      NetPayload.from_xml (.elem t a c) = .error (.keyError "net")) ∧
    CustomerPayload.from_xml customerDocNoComment =
      .ok { customer_name := .str "Acme Inc"
            iso3166_1_name := .str "CANADA"
            iso3166_1_code2 := .str "CA"
            iso3166_1_code3 := .str "CAN"
            iso3166_1_e164 := .str "1"
            street_address := .str "1 Main St"
            city := .str "Montreal"
            iso3166_2 := .str "QC"
            postal_code := .str "H1A 1A1"
            comment := .none
            parent_org_handle := .str "ORG-1"
            private_customer := .str "true"
            handle := .str "C12345"
            registration_date := .str "2019-01-01" } := by
  refine ⟨?_, ?_, rfl⟩
  · intro t a c ht
    have hb : ("customer" == t) = false := by
      simp [ht.symm]
    unfold CustomerPayload.from_xml
    simp [parseDoc, pyIndex, List.lookup, hb, Bind.bind, Except.bind]
  · intro t a c ht
    have hb : ("net" == t) = false := by
      simp [ht.symm]
    unfold NetPayload.from_xml
    simp [parseDoc, pyIndex, List.lookup, hb, Bind.bind, Except.bind]

/-- C5 witness: the amended statement's root-tag clauses at a concrete
wrong root. -/
theorem C5_root_and_required_fields_witness :
    CustomerPayload.from_xml (.elem "foo" [] []) = .error (.keyError "customer") ∧
    NetPayload.from_xml (.elem "foo" [] []) = .error (.keyError "net") :=
  ⟨C5_root_and_required_fields.1 "foo" [] [] (by decide),
   C5_root_and_required_fields.2.1 "foo" [] [] (by decide)⟩

/-! ## C6 -/

/-- A fully populated `CustomerPayload` as built before a create call
(`handle`/`registration_date` left `None`). -/
def c0 : CustomerPayload :=
  { customer_name := .str "Acme Inc"
    iso3166_1_name := .str "CANADA"
    iso3166_1_code2 := .str "CA"
    iso3166_1_code3 := .str "CAN"
    iso3166_1_e164 := .str "1"
    street_address := .str "1 Main St"
    city := .str "Montreal"
    iso3166_2 := .str "QC"
    postal_code := .str "H1A 1A1"
    comment := .str "NOC 24x7"
    parent_org_handle := .str "ORG-1"
    private_customer := .str "true"
    handle := .none
    registration_date := .none }

/-- The net block the orchestrator builds for `10.1.1.0/24`. -/
def nb6 : NetBlockPayload :=
  { version := .none, net_type := .none, description := .str "Customer Allocation",
    start_address := .str "10.1.1.0", end_address := .none, cidr_length := .int 24 }

/-- The net payload the orchestrator builds (`comment = None`). -/
def p6 : NetPayload :=
  NetPayload.init (.int 4) .none (.str "NET-PARENT") (.str "CUST-4-10-1-1-0")
    (some [.str "AS64500"]) (some [nb6]) .none .none .none (.str "C12345")
    Option.none

/-- `p6` with a non-`None` comment, to get past the `#text` crash. -/
def p6c : NetPayload :=
  NetPayload.init (.int 4) (.str "ops") (.str "NET-PARENT") (.str "CUST-4-10-1-1-0")
    (some [.str "AS64500"]) (some [nb6]) .none .none .none (.str "C12345")
    Option.none

/-- `fromXml(toXml(payload))` for `CustomerPayload`. -/
def customerRoundTrip (c : CustomerPayload) : Except PyErr CustomerPayload :=
  CustomerPayload.from_xml c.toXml

/-- `fromXml(toXml(payload))` for `NetPayload`. -/
def netRoundTrip (p : NetPayload) : Except PyErr NetPayload :=
  p.toXml.bind NetPayload.from_xml

/-- C6: the round-trip claim holds for a fully populated
`CustomerPayload` (server-assigned fields round-trip as `None`), but it
is **broken** for `NetPayload`:
with `comment = None` (as the orchestrator builds it) `from_xml` crashes
with `KeyError('#text')` on the serialized empty comment line; with a
non-empty comment it silently returns `net_blocks = []` and
`origin_ases = []` — because `from_xml` looks up the snake_case keys
`'net_blocks'`/`'origin_ases'` while the XML tags are
`netBlocks`/`originASes` (its own extraction loops are unreachable dead
code) — and turns the int version `4` into the string `"4"`. -/
theorem C6_roundtrip_broken_for_net :
    customerRoundTrip c0 = .ok c0 ∧
    netRoundTrip p6 = .error (.keyError "#text") ∧
    (netRoundTrip p6c).map NetPayload.net_blocks = .ok (some []) ∧
    p6c.net_blocks = some [nb6] ∧
    (some [nb6] : Option (List NetBlockPayload)) ≠ some [] ∧
    (netRoundTrip p6c).map NetPayload.origin_ases = .ok (some []) ∧
    p6c.origin_ases = some [.str "AS64500"] ∧
    (netRoundTrip p6c).map NetPayload.version = .ok (.str "4") ∧
    p6c.version = .int 4 := by
  refine ⟨rfl, rfl, rfl, rfl, by simp, rfl, rfl, rfl, rfl⟩

/-! ## C7 -/

theorem strMkData (s : String) : String.mk s.data = s := by
  cases s
  rfl

theorem pySplitAux_no_sep (sep : Char) (l : List Char) (acc : List Char)
    (h : sep ∉ l) : pySplitAux sep l acc = [String.mk (acc.reverse ++ l)] := by
  induction l generalizing acc with
  | nil => simp [pySplitAux]
  | cons c cs ih =>
    have hc : ¬ c = sep := by
      intro e
      exact h (by simp [e])
    have h2 : sep ∉ cs := fun m => h (List.mem_cons_of_mem _ m)
    simp [pySplitAux, hc, ih _ h2, List.append_assoc]

theorem pySplitAux_sep_split (sep : Char) (l rest acc : List Char) (h : sep ∉ l) :
    pySplitAux sep (l ++ sep :: rest) acc =
      String.mk (acc.reverse ++ l) :: pySplitAux sep rest [] := by
  induction l generalizing acc with
  | nil => simp [pySplitAux]
  | cons c cs ih =>
    have hc : ¬ c = sep := by
      intro e
      exact h (by simp [e])
    have h2 : sep ∉ cs := fun m => h (List.mem_cons_of_mem _ m)
    simp [pySplitAux, hc, ih _ h2, List.append_assoc]

theorem pySplit_four_octets (o1 o2 o3 o4 : String)
    (h1 : '.' ∉ o1.data) (h2 : '.' ∉ o2.data)
    (h3 : '.' ∉ o3.data) (h4 : '.' ∉ o4.data) :
    pySplit '.' (o1 ++ "." ++ o2 ++ "." ++ o3 ++ "." ++ o4) = [o1, o2, o3, o4] := by
  have hd : (o1 ++ "." ++ o2 ++ "." ++ o3 ++ "." ++ o4).data
      = o1.data ++ '.' :: (o2.data ++ '.' :: (o3.data ++ '.' :: o4.data)) := by
    simp [String.data_append]
  unfold pySplit
  rw [hd, pySplitAux_sep_split _ _ _ _ h1, pySplitAux_sep_split _ _ _ _ h2,
    pySplitAux_sep_split _ _ _ _ h3, pySplitAux_no_sep _ _ _ h4]
  simp [strMkData]

/-- C7: the net name the orchestrator constructs for a dotted-quad
network address is `"CUST-" + family + "-" + octets-joined-by-hyphen` —
for any family and any four octet strings free of dots. -/
theorem C7_net_name_formula (family : Nat) (o1 o2 o3 o4 : String)
    (h1 : '.' ∉ o1.data) (h2 : '.' ∉ o2.data)
    (h3 : '.' ∉ o3.data) (h4 : '.' ∉ o4.data) :
    netNameOf family (o1 ++ "." ++ o2 ++ "." ++ o3 ++ "." ++ o4) =
      "CUST-" ++ toString family ++ "-" ++
        (o1 ++ "-" ++ (o2 ++ "-" ++ (o3 ++ "-" ++ o4))) := by
  unfold netNameOf
  rw [pySplit_four_octets o1 o2 o3 o4 h1 h2 h3 h4]
  rfl

/-- C7 witness: for prefix `10.1.1.0/24` with family `4` the
constructed net name is `"CUST-4-10-1-1-0"`. -/
theorem C7_net_name_formula_witness :
    netNameOf 4 "10.1.1.0" = "CUST-4-10-1-1-0" := by
  have h := C7_net_name_formula 4 "10" "1" "1" "0"
    (by decide) (by decide) (by decide) (by decide)
  exact h

/-! ## C8 -/

/-- C8: when the prefix's resolved aggregate carries no (truthy)
`RIR Handle`, the single-prefix workflow ends in `ctx.exit(1)` — the
orchestrator-level precondition failure — and the list of registry
calls issued is empty: neither the customer-creation nor the
net-reassignment request is ever sent (nor is the geocoder consulted). -/
theorem C8_no_calls_without_aggregate_handle (env : Env) (prefix_id : Nat)
    (replace_existing : Bool) (hid : prefix_id ≠ 0)
    (hagg : pyTruthy env.aggregateHandle = false) :
    arin_reassign_simple_one env prefix_id replace_existing = (.exited 1, []) := by
  have h0 : (prefix_id == 0) = false := by simpa using hid
  by_cases hp : env.parentOrgHandle.isEmpty = true <;>
    by_cases hr : (!replace_existing &&
        pyTruthy (env.getPfx prefix_id).rirHandle) = true <;>
      simp [arin_reassign_simple_one, h0, hp, hr, hagg]

/-- Geocoder output used by the concrete environments. -/
def g0 : GeoFields :=
  { iso1Name := "CANADA", iso1Code2 := "CA", iso1Code3 := "CAN", iso1E164 := "1",
    streetAddr := "1 Main St", city := "Montreal", iso3166_2 := "QC",
    postalCode := "H1A 1A1" }

/-- A prefix with site and tenant and no RIR handle. -/
def pfx1 : PfxRec :=
  { id := 1, netAddr := "10.1.1.0", pfxLen := 24, family := 4,
    roleName := "Customer Allocation", rirHandle := .none,
    site := some { physicalAddress := "1 Main St" },
    tenant := some { name := "Acme Inc" } }

/-- A second such prefix. -/
def pfx2 : PfxRec :=
  { pfx1 with id := 2, netAddr := "10.1.2.0" }

/-- An environment whose aggregate has no RIR handle. -/
def envNoAgg : Env :=
  { parentOrgHandle := "ORG-1", originAses := ["AS64500"],
    aggregateHandle := .none, geocode := fun _ => .ok g0,
    customerResp := .fals, netResp := .fals,
    getPfx := fun i => if i == 1 then pfx1 else pfx2 }

/-- C8 witness: the statement at a concrete environment and prefix. -/
theorem C8_no_calls_without_aggregate_handle_witness :
    arin_reassign_simple_one envNoAgg 1 false = (.exited 1, []) :=
  C8_no_calls_without_aggregate_handle envNoAgg 1 false (by decide) rfl

/-! ## C9 -/

/-- The batch loop's own pre-checks for one prefix: an already-present
`RIR Handle` (without `--replace-existing`), a missing site, or a
missing tenant make the loop log and `continue`. -/
def batchSkips (replace_existing : Bool) (p : PfxRec) : Bool :=
  (!replace_existing && pyTruthy p.rirHandle) || p.site.isNone || p.tenant.isNone

/-- An environment with an aggregate handle but a failing registry
(`create_recipient_customer` returns `False`). -/
def env0 : Env :=
  { parentOrgHandle := "ORG-1", originAses := ["AS64500"],
    aggregateHandle := .str "NET-PARENT", geocode := fun _ => .ok g0,
    customerResp := .fals, netResp := .fals,
    getPfx := fun i => if i == 1 then pfx1 else pfx2 }

/-- C9 counterexample: in a two-prefix batch where the first prefix
passes the loop's pre-checks but its workflow fails at the registry
(the customer-creation response is `False`), the run lands in
`ipdb.set_trace()` and the batch is aborted: the second prefix is never
processed, no further registry call is made — the failure is **not**
logged-and-continued as the claim states. -/
theorem C9_batch_aborts_on_failure :
    (arin_reassign_simple_batch env0 false [pfx1, pfx2]).1 = [(1, .debugger)] ∧
    (arin_reassign_simple_batch env0 false [pfx1, pfx2]).2.2 = .aborted .debugger ∧
    (arin_reassign_simple_batch env0 false [pfx1, pfx2]).2.1.length = 1 :=
  ⟨rfl, rfl, rfl⟩

/-- C9 (amended): the batch is strictly sequential, and only the loop's
own pre-checks (existing handle / no site / no tenant) log and continue
to the next prefix; when a prefix passes the pre-checks, a normal
workflow ending prepends its outcome and calls and continues, while any
abnormal ending (`ctx.exit`, an uncaught exception, geocoder failure,
or the debugger on a registry failure) aborts the batch — the outcome
list then contains only that prefix, and the remaining prefixes are not
processed. -/
theorem C9_batch_structure (env : Env) (replace_existing : Bool) (p : PfxRec)
    (rest : List PfxRec) :
    (batchSkips replace_existing p = true →
      arin_reassign_simple_batch env replace_existing (p :: rest) =
        arin_reassign_simple_batch env replace_existing rest) ∧
    (batchSkips replace_existing p = false →
      ((arin_reassign_simple_one env p.id replace_existing).1.continuesBatch = true →
        arin_reassign_simple_batch env replace_existing (p :: rest) =
          ((p.id, (arin_reassign_simple_one env p.id replace_existing).1) ::
              (arin_reassign_simple_batch env replace_existing rest).1,
            (arin_reassign_simple_one env p.id replace_existing).2 ++
              (arin_reassign_simple_batch env replace_existing rest).2.1,
            (arin_reassign_simple_batch env replace_existing rest).2.2)) ∧
      ((arin_reassign_simple_one env p.id replace_existing).1.continuesBatch = false →
        arin_reassign_simple_batch env replace_existing (p :: rest) =
          ([(p.id, (arin_reassign_simple_one env p.id replace_existing).1)],
            (arin_reassign_simple_one env p.id replace_existing).2,
            .aborted (arin_reassign_simple_one env p.id replace_existing).1))) := by
  constructor
  · intro hs
    by_cases hA : (!replace_existing && pyTruthy p.rirHandle) = true
    · simp [arin_reassign_simple_batch, hA]
    · by_cases hB : p.site.isNone = true
      · simp [arin_reassign_simple_batch, hA, hB]
      · have hC : p.tenant = Option.none := by
          simp [batchSkips, hA, hB] at hs
          exact hs
        simp [arin_reassign_simple_batch, hA, hB, hC]
  · intro hs
    by_cases hA : (!replace_existing && pyTruthy p.rirHandle) = true
    · exact absurd hs (by simp [batchSkips, hA])
    · by_cases hB : p.site.isNone = true
      · exact absurd hs (by simp [batchSkips, hB])
      · by_cases hC : p.tenant.isNone = true
        · exact absurd hs (by simp [batchSkips, hC])
        · constructor <;> intro hc <;>
            simp [arin_reassign_simple_batch, hA, hB, hC, hc]

/-- C9 witness: the amended statement's abort clause at the concrete
two-prefix batch of `C9`. -/
theorem C9_batch_structure_witness :
    arin_reassign_simple_batch env0 false (pfx1 :: [pfx2]) =
      ([(pfx1.id, (arin_reassign_simple_one env0 pfx1.id false).1)],
        (arin_reassign_simple_one env0 pfx1.id false).2,
        .aborted (arin_reassign_simple_one env0 pfx1.id false).1) :=
  ((C9_batch_structure env0 false pfx1 [pfx2]).2 rfl).2 rfl

/-! ## C10 -/

/-- C10 counterexample: a `ticketedRequest` response whose root element
is present but completely empty parses to `None`, so the `.get('net')`
call raises `AttributeError` instead of returning `None`. -/
theorem C10_empty_root_raises :
    TicketedRequestPayload.from_xml (.elem "ticketedRequest" [] []) =
      .error (.attributeError "object has no attribute get") :=
  rfl

/-- C10 (amended): when the `ticketedRequest` root parses to a mapping
(it has at least one attribute or element child) and its `net` entry is
absent or falsy, `from_xml` returns `None` without raising — and by its
type only an embedded `net` is ever unwrapped, into a `NetPayload`; a
root that parses to `None` (empty) or to a bare string raises
`AttributeError` on `.get`. -/
theorem C10_no_net_returns_none (a : List (String × String)) (c : List Xml)
    (hd : isDictV (parseContent a c) = true)
    (hn : pyTruthy (pyGetD (parseContent a c) "net") = false) :
    TicketedRequestPayload.from_xml (.elem "ticketedRequest" a c) =
      .ok Option.none := by
  rcases hpc : parseContent a c with _ | b | n | s | es | xs <;>
    rw [hpc] at hd hn <;> simp [isDictV] at hd
  unfold TicketedRequestPayload.from_xml
  simp only [parseDoc, hpc, pyIndex, List.lookup]
  simp only [pyGetD] at hn
  cases hlk : es.lookup "net" with
  | none =>
    rw [hlk] at hn
    simp [pyGetM, hlk, Bind.bind, Except.bind, pyTruthy]
    rfl
  | some w =>
    rw [hlk] at hn
    simp only [Option.getD] at hn
    simp [pyGetM, hlk, Bind.bind, Except.bind, hn]
    rfl

/-- C10 witness: a `ticketedRequest` carrying only a ticket number
returns `None`. -/
theorem C10_no_net_returns_none_witness :
    TicketedRequestPayload.from_xml
        (.elem "ticketedRequest" [] [.elem "ticketNo" [] [.text "T1"]]) =
      .ok Option.none :=
  C10_no_net_returns_none [] [.elem "ticketNo" [] [.text "T1"]] rfl rfl
